import Mathlib

/-!
Shallow embedding of the `python-docker` repository: a Flask app (`app.py`)
with three handlers, and an offline training script (`iris_train.py`) that
fits a nearest-neighbor classifier on the iris dataset and serializes it
to the file `knn.pkl`.
-/

namespace PythonDocker

/-- A single-quote character, used when rendering Python string reprs. -/
def apos : String := String.singleton (Char.ofNat 39)

/-- An exact fraction `num / den`, the model of the decimal numbers that
appear in JSON bodies and in the dataset (Python floats idealized as exact
rationals; every fraction built in this development has a positive
denominator). -/
structure Frac where
  num : Int
  den : Nat
  deriving DecidableEq

/-- The fraction `n / 1`. -/
def Frac.ofInt (n : Int) : Frac := ⟨n, 1⟩

/-- The fraction `n / 10`, one decimal digit of precision: the form every
iris feature value takes. -/
def tenths (n : Int) : Frac := ⟨n, 10⟩

/-- Fraction addition (no normalization; a common denominator is kept as
is, so that sums of same-precision decimals stay small). -/
def Frac.add (x y : Frac) : Frac :=
  if x.den = y.den then ⟨x.num + y.num, x.den⟩
  else ⟨x.num * y.den + y.num * x.den, x.den * y.den⟩

/-- Fraction subtraction (no normalization). -/
def Frac.sub (x y : Frac) : Frac := ⟨x.num * y.den - y.num * x.den, x.den * y.den⟩

/-- Fraction multiplication (no normalization). -/
def Frac.mul (x y : Frac) : Frac := ⟨x.num * y.num, x.den * y.den⟩

/-- Value order on fractions with positive denominators, by
cross-multiplication. -/
def Frac.blt (x y : Frac) : Bool := x.num * y.den < y.num * x.den

/-- JSON values as produced by `request.get_json()`: once parsed, the body is
a Python object built from `None`, booleans, ints, floats, strings, lists and
string-keyed dicts. -/
inductive JsonValue where
  | null
  | bool (b : Bool)
  | int (n : Int)
  | float (q : Frac)
  | str (s : String)
  | arr (elems : List JsonValue)
  | obj (fields : List (String × JsonValue))

/-- Python exceptions that the application code can raise (none are caught). -/
inductive PyError where
  | keyError (k : String)
  | typeError
  | fileNotFoundError
  | valueError
  deriving DecidableEq

/-- Decimal rendering of a fraction, mirroring how Python prints the floats
that arise from JSON decimal literals (idealized: floats are exact
rationals). -/
def floatStr (q : Frac) : String :=
  let sign := if q.num < 0 then "-" else ""
  let n := q.num.natAbs
  match (List.range 40).find? (fun k => q.den ∣ 10 ^ k) with
  | some 0 => sign ++ toString (n / q.den) ++ ".0"
  | some k =>
      let scaled := n * 10 ^ k / q.den
      let ip := scaled / 10 ^ k
      let fp := scaled % 10 ^ k
      let fpStr := toString fp
      let pad := String.mk (List.replicate (k - fpStr.length) (Char.ofNat 48))
      sign ++ toString ip ++ "." ++ pad ++ fpStr
  | none => sign ++ toString n ++ "/" ++ toString q.den

mutual

/-- Python `repr` of a JSON-derived value (strings are quoted). -/
def pyRepr : JsonValue → String
  | .null => "None"
  | .bool b => cond b "True" "False"
  | .int n => toString n
  | .float q => floatStr q
  | .str s => apos ++ s ++ apos
  | .arr elems => "[" ++ pyReprList elems ++ "]"
  | .obj fields => "\x7b" ++ pyReprFields fields ++ "\x7d"

/-- Comma-separated reprs of the elements of a Python list. -/
def pyReprList : List JsonValue → String
  | [] => ""
  | [v] => pyRepr v
  | v :: vs => pyRepr v ++ ", " ++ pyReprList vs

/-- Comma-separated reprs of the entries of a Python dict. -/
def pyReprFields : List (String × JsonValue) → String
  | [] => ""
  | [(k, v)] => apos ++ k ++ apos ++ ": " ++ pyRepr v
  | (k, v) :: kvs => apos ++ k ++ apos ++ ": " ++ pyRepr v ++ ", " ++ pyReprFields kvs

end

/-- Python `str` of a JSON-derived value, the semantics of `"...".format(v)`:
a string renders verbatim, everything else as its repr. -/
def pyStr : JsonValue → String
  | .str s => s
  | v => pyRepr v

/-- Decidable equality of fallible results, used to evaluate the handlers
on concrete inputs. -/
def exceptDecEq {ε α : Type} [DecidableEq ε] [DecidableEq α] :
    DecidableEq (Except ε α)
  | .ok x, .ok y =>
      match decEq x y with
      | isTrue h => isTrue (h ▸ rfl)
      | isFalse h => isFalse fun hh => h (Except.ok.inj hh)
  | .ok _, .error _ => isFalse fun hh => Except.noConfusion hh
  | .error _, .ok _ => isFalse fun hh => Except.noConfusion hh
  | .error e, .error f =>
      match decEq e f with
      | isTrue h => isTrue (h ▸ rfl)
      | isFalse h => isFalse fun hh => h (Except.error.inj hh)

instance {ε α : Type} [DecidableEq ε] [DecidableEq α] :
    DecidableEq (Except ε α) :=
  exceptDecEq

/-- Python subscript `json[key]`: on a dict, the value at `key` or a
`KeyError`; on any non-dict value, a `TypeError`. -/
def pyGetItem : JsonValue → String → Except PyError JsonValue
  | .obj fields, k =>
      match fields.lookup k with
      | some v => .ok v
      | none => .error (.keyError k)
  | _, _ => .error .typeError

/-- Whether the JSON body is a dict containing the given key. -/
def hasKey (j : JsonValue) (k : String) : Bool :=
  match j with
  | .obj fields => (fields.lookup k).isSome
  | _ => false

/-! ## The nearest-neighbor classifier and its serialization

Modelled from the spec: `sklearn.neighbors.KNeighborsClassifier`,
`sklearn.datasets.load_iris` and `sklearn.externals.joblib` are external
library collaborators, not code of this repository.  The spec describes the
classifier as "a model that labels a new sample by majority vote among its
closest training samples under a distance metric", constructed with the
default neighbor count, and describes the serialized artifact as "capturing
the fitted nearest-neighbor model state (training data, distance parameters,
vote count)".  We model the classifier as its fitted state plus a
k-nearest-neighbor vote under squared Euclidean distance (sklearn defaults:
5 neighbors, uniform weights, Euclidean metric, vote ties broken toward the
smallest label), and the serialized file as holding the classifier state
itself. -/

/-- Modelled from the spec: the fitted state of
`sklearn.neighbors.KNeighborsClassifier` — vote count (default 5) and the
training samples remembered by `fit`. -/
structure KNeighborsClassifier where
  n_neighbors : Nat := 5
  fitX : List (List Frac) := []
  fitY : List Nat := []
  deriving DecidableEq

/-- `knn.fit(X, y)`: remember the training samples and labels. -/
def KNeighborsClassifier.fit (knn : KNeighborsClassifier)
    (X : List (List Frac)) (y : List Nat) : KNeighborsClassifier :=
  { knn with fitX := X, fitY := y }

/-- Number of features the classifier was fitted on. -/
def KNeighborsClassifier.n_features (knn : KNeighborsClassifier) : Nat :=
  match knn.fitX with
  | [] => 0
  | row :: _ => row.length

/-- Squared Euclidean distance between two feature vectors: the sum of the
squared coordinate differences over the common length. -/
def sqDist : List Frac → List Frac → Frac
  | a :: as, b :: bs =>
      let d := a.sub b
      (d.mul d).add (sqDist as bs)
  | _, _ => ⟨0, 1⟩

/-- Insert a (distance, label) candidate into a distance-sorted list, after
any candidate at the same distance (earlier training samples win ties). -/
def insertNeighbor (c : Frac × Nat) : List (Frac × Nat) → List (Frac × Nat)
  | [] => [c]
  | d :: ds =>
      match c.1.blt d.1 with
      | true => c :: d :: ds
      | false => d :: insertNeighbor c ds

/-- The `k` nearest (distance, label) candidates, scanning in sample order. -/
def kNearest (k : Nat) (cands : List (Frac × Nat)) : List (Frac × Nat) :=
  cands.foldl (fun best c => (insertNeighbor c best).take k) []

/-- Index of the first maximal entry, as `numpy.argmax` (auxiliary scan). -/
def argmaxAux : List Nat → Nat → Nat → Nat → Nat
  | [], _, bi, _ => bi
  | v :: vs, best, bi, i =>
      if v > best then argmaxAux vs v i (i + 1) else argmaxAux vs best bi (i + 1)

/-- Index of the first maximal entry of a list (`0` on the empty list). -/
def argmaxIdx : List Nat → Nat
  | [] => 0
  | v :: vs => argmaxAux vs v 0 1

/-- Majority vote among neighbor labels; ties go to the smallest label,
as `numpy.argmax` over `numpy.bincount`. -/
def majorityLabel (labels : List Nat) : Nat :=
  let top := labels.foldl Nat.max 0
  argmaxIdx ((List.range (top + 1)).map (fun c => labels.countP (fun l => l == c)))

/-- Predicted label for a single feature vector: majority vote among the
`n_neighbors` nearest training samples. -/
def KNeighborsClassifier.predictOne (knn : KNeighborsClassifier)
    (x : List Frac) : Nat :=
  let cands := (knn.fitX.map (fun t => sqDist x t)).zip knn.fitY
  majorityLabel ((kNearest knn.n_neighbors cands).map Prod.snd)

/-- `model.predict(X)`: requires a nonempty batch whose rows all have the
fitted arity (otherwise sklearn raises a `ValueError`), and labels each row. -/
def KNeighborsClassifier.predict (knn : KNeighborsClassifier)
    (X : List (List Frac)) : Except PyError (List Nat) :=
  if X.isEmpty then .error .valueError
  else if X.all (fun row => row.length == knn.n_features) then
    .ok (X.map knn.predictOne)
  else .error .valueError

/-- A JSON value usable as one numeric feature (ints, floats, bools). -/
def jsonToNum : JsonValue → Option Frac
  | .int n => some (Frac.ofInt n)
  | .float q => some q
  | .bool b => some (Frac.ofInt (cond b 1 0))
  | _ => none

/-- A JSON value usable as one feature vector. -/
def jsonToRow : JsonValue → Option (List Frac)
  | .arr elems => elems.mapM jsonToNum
  | _ => none

/-- A JSON value usable as a batch of feature vectors. -/
def jsonToMatrix : JsonValue → Option (List (List Frac))
  | .arr rows => rows.mapM jsonToRow
  | _ => none

/-- `model.predict` applied to a raw JSON value: non-numeric or non-2D input
raises a `ValueError` (numpy/sklearn array validation), else predict. -/
def KNeighborsClassifier.predictJson (knn : KNeighborsClassifier)
    (x : JsonValue) : Except PyError (List Nat) :=
  match jsonToMatrix x with
  | none => .error .valueError
  | some X => knn.predict X

/-- `str(...)` of a numpy integer label array: space-separated in brackets. -/
def npIntArrayStr (labels : List Nat) : String :=
  "[" ++ String.intercalate " " (labels.map toString) ++ "]"

/-! ## The filesystem and joblib -/

/-- The filesystem visible to the program: named files each holding a
serialized classifier artifact. -/
abbrev FileSystem := List (String × KNeighborsClassifier)

/-- Content of the file with the given name, if it exists. -/
def fsLookup (fs : FileSystem) (name : String) : Option KNeighborsClassifier :=
  fs.lookup name

/-- Write a file, replacing any prior file of the same name. -/
def fsWrite (fs : FileSystem) (name : String) (m : KNeighborsClassifier) :
    FileSystem :=
  (name, m) :: fs.filter (fun p => !(p.1 == name))

/-- Modelled from the spec: `joblib.dump(m, filename)` serializes the fitted
classifier to the named file, replacing any prior file. -/
def joblib_dump (m : KNeighborsClassifier) (filename : String)
    (fs : FileSystem) : FileSystem :=
  fsWrite fs filename m

/-- Modelled from the spec: `joblib.load(filename)` deserializes the
classifier stored in the named file; a missing file raises
`FileNotFoundError`. -/
def joblib_load (filename : String) (fs : FileSystem) :
    Except PyError KNeighborsClassifier :=
  match fsLookup fs filename with
  | some m => .ok m
  | none => .error .fileNotFoundError

/-! ## The Flask app (`app.py`) -/

/-- An HTTP response: status code and body. -/
structure Response where
  status : Nat
  body : String
  deriving DecidableEq

/-- The default unhandled-exception response Flask sends when a view
function raises: `500 Internal Server Error`, no custom body. -/
def INTERNAL_SERVER_ERROR : Response := ⟨500, "Internal Server Error"⟩

/-- Flask dispatch around a view function: a returned string becomes a
`200` response, an uncaught exception becomes the default error response. -/
def flaskResponse : Except PyError String → Response
  | .ok s => ⟨200, s⟩
  | .error _ => INTERNAL_SERVER_ERROR

/-- The sentence built by the echo handler: the Python format string
`Hello <name>. You(squote)re <age> years old.` with both values rendered
by `str`. -/
def echoSentence (name age : JsonValue) : String :=
  "Hello " ++ pyStr name ++ ". You" ++ apos ++ "re " ++ pyStr age ++
    " years old."

/-- View for `GET /`: returns the fixed greeting. -/
def hello : Except PyError String :=
  .ok "Hello World!"

/-- View for `POST /do_post`: reads `name` and `age` from the JSON body and
returns the formatted sentence; a missing key raises. -/
def post_method (body : JsonValue) : Except PyError String := do
  let name ← pyGetItem body "name"
  let age ← pyGetItem body "age"
  pure (echoSentence name age)

/-- View for `POST /predict_iris`: reads `X` from the JSON body, then loads
the classifier from `knn.pkl`, then predicts on `X` and returns the label
array rendered as a string; any failure raises. -/
def predict_iris (body : JsonValue) (fs : FileSystem) :
    Except PyError String := do
  let x ← pyGetItem body "X"
  let model ← joblib_load "knn.pkl" fs
  let labels ← model.predictJson x
  pure (npIntArrayStr labels)

/-- The requests the app routes. -/
inductive Request where
  | getRoot
  | postDoPost (body : JsonValue)
  | postPredictIris (body : JsonValue)

/-- One server step: dispatch a request against the current filesystem,
producing the response and the filesystem afterwards. -/
def handle : Request → FileSystem → Response × FileSystem
  | .getRoot, fs => (flaskResponse hello, fs)
  | .postDoPost body, fs => (flaskResponse (post_method body), fs)
  | .postPredictIris body, fs => (flaskResponse (predict_iris body fs), fs)

/-! ## The trainer (`iris_train.py`) -/

/-- A labeled dataset: feature rows and their class labels. -/
structure IrisDataset where
  data : List (List Frac)
  target : List Nat

/-- Rows 0 to 14 of the iris feature table. -/
def irisChunk0 : List (List Frac) :=
  [[tenths 51, tenths 35, tenths 14, tenths 2],
   [tenths 49, tenths 30, tenths 14, tenths 2],
   [tenths 47, tenths 32, tenths 13, tenths 2],
   [tenths 46, tenths 31, tenths 15, tenths 2],
   [tenths 50, tenths 36, tenths 14, tenths 2],
   [tenths 54, tenths 39, tenths 17, tenths 4],
   [tenths 46, tenths 34, tenths 14, tenths 3],
   [tenths 50, tenths 34, tenths 15, tenths 2],
   [tenths 44, tenths 29, tenths 14, tenths 2],
   [tenths 49, tenths 31, tenths 15, tenths 1],
   [tenths 54, tenths 37, tenths 15, tenths 2],
   [tenths 48, tenths 34, tenths 16, tenths 2],
   [tenths 48, tenths 30, tenths 14, tenths 1],
   [tenths 43, tenths 30, tenths 11, tenths 1],
   [tenths 58, tenths 40, tenths 12, tenths 2]]

/-- Rows 15 to 29 of the iris feature table. -/
def irisChunk1 : List (List Frac) :=
  [[tenths 57, tenths 44, tenths 15, tenths 4],
   [tenths 54, tenths 39, tenths 13, tenths 4],
   [tenths 51, tenths 35, tenths 14, tenths 3],
   [tenths 57, tenths 38, tenths 17, tenths 3],
   [tenths 51, tenths 38, tenths 15, tenths 3],
   [tenths 54, tenths 34, tenths 17, tenths 2],
   [tenths 51, tenths 37, tenths 15, tenths 4],
   [tenths 46, tenths 36, tenths 10, tenths 2],
   [tenths 51, tenths 33, tenths 17, tenths 5],
   [tenths 48, tenths 34, tenths 19, tenths 2],
   [tenths 50, tenths 30, tenths 16, tenths 2],
   [tenths 50, tenths 34, tenths 16, tenths 4],
   [tenths 52, tenths 35, tenths 15, tenths 2],
   [tenths 52, tenths 34, tenths 14, tenths 2],
   [tenths 47, tenths 32, tenths 16, tenths 2]]

/-- Rows 30 to 44 of the iris feature table. -/
def irisChunk2 : List (List Frac) :=
  [[tenths 48, tenths 31, tenths 16, tenths 2],
   [tenths 54, tenths 34, tenths 15, tenths 4],
   [tenths 52, tenths 41, tenths 15, tenths 1],
   [tenths 55, tenths 42, tenths 14, tenths 2],
   [tenths 49, tenths 31, tenths 15, tenths 1],
   [tenths 50, tenths 32, tenths 12, tenths 2],
   [tenths 55, tenths 35, tenths 13, tenths 2],
   [tenths 49, tenths 31, tenths 15, tenths 1],
   [tenths 44, tenths 30, tenths 13, tenths 2],
   [tenths 51, tenths 34, tenths 15, tenths 2],
   [tenths 50, tenths 35, tenths 13, tenths 3],
   [tenths 45, tenths 23, tenths 13, tenths 3],
   [tenths 44, tenths 32, tenths 13, tenths 2],
   [tenths 50, tenths 35, tenths 16, tenths 6],
   [tenths 51, tenths 38, tenths 19, tenths 4]]

/-- Rows 45 to 59 of the iris feature table. -/
def irisChunk3 : List (List Frac) :=
  [[tenths 48, tenths 30, tenths 14, tenths 3],
   [tenths 51, tenths 38, tenths 16, tenths 2],
   [tenths 46, tenths 32, tenths 14, tenths 2],
   [tenths 53, tenths 37, tenths 15, tenths 2],
   [tenths 50, tenths 33, tenths 14, tenths 2],
   [tenths 70, tenths 32, tenths 47, tenths 14],
   [tenths 64, tenths 32, tenths 45, tenths 15],
   [tenths 69, tenths 31, tenths 49, tenths 15],
   [tenths 55, tenths 23, tenths 40, tenths 13],
   [tenths 65, tenths 28, tenths 46, tenths 15],
   [tenths 57, tenths 28, tenths 45, tenths 13],
   [tenths 63, tenths 33, tenths 47, tenths 16],
   [tenths 49, tenths 24, tenths 33, tenths 10],
   [tenths 66, tenths 29, tenths 46, tenths 13],
   [tenths 52, tenths 27, tenths 39, tenths 14]]

/-- Rows 60 to 74 of the iris feature table. -/
def irisChunk4 : List (List Frac) :=
  [[tenths 50, tenths 20, tenths 35, tenths 10],
   [tenths 59, tenths 30, tenths 42, tenths 15],
   [tenths 60, tenths 22, tenths 40, tenths 10],
   [tenths 61, tenths 29, tenths 47, tenths 14],
   [tenths 56, tenths 29, tenths 36, tenths 13],
   [tenths 67, tenths 31, tenths 44, tenths 14],
   [tenths 56, tenths 30, tenths 45, tenths 15],
   [tenths 58, tenths 27, tenths 41, tenths 10],
   [tenths 62, tenths 22, tenths 45, tenths 15],
   [tenths 56, tenths 25, tenths 39, tenths 11],
   [tenths 59, tenths 32, tenths 48, tenths 18],
   [tenths 61, tenths 28, tenths 40, tenths 13],
   [tenths 63, tenths 25, tenths 49, tenths 15],
   [tenths 61, tenths 28, tenths 47, tenths 12],
   [tenths 64, tenths 29, tenths 43, tenths 13]]

/-- Rows 75 to 89 of the iris feature table. -/
def irisChunk5 : List (List Frac) :=
  [[tenths 66, tenths 30, tenths 44, tenths 14],
   [tenths 68, tenths 28, tenths 48, tenths 14],
   [tenths 67, tenths 30, tenths 50, tenths 17],
   [tenths 60, tenths 29, tenths 45, tenths 15],
   [tenths 57, tenths 26, tenths 35, tenths 10],
   [tenths 55, tenths 24, tenths 38, tenths 11],
   [tenths 55, tenths 24, tenths 37, tenths 10],
   [tenths 58, tenths 27, tenths 39, tenths 12],
   [tenths 60, tenths 27, tenths 51, tenths 16],
   [tenths 54, tenths 30, tenths 45, tenths 15],
   [tenths 60, tenths 34, tenths 45, tenths 16],
   [tenths 67, tenths 31, tenths 47, tenths 15],
   [tenths 63, tenths 23, tenths 44, tenths 13],
   [tenths 56, tenths 30, tenths 41, tenths 13],
   [tenths 55, tenths 25, tenths 40, tenths 13]]

/-- Rows 90 to 104 of the iris feature table. -/
def irisChunk6 : List (List Frac) :=
  [[tenths 55, tenths 26, tenths 44, tenths 12],
   [tenths 61, tenths 30, tenths 46, tenths 14],
   [tenths 58, tenths 26, tenths 40, tenths 12],
   [tenths 50, tenths 23, tenths 33, tenths 10],
   [tenths 56, tenths 27, tenths 42, tenths 13],
   [tenths 57, tenths 30, tenths 42, tenths 12],
   [tenths 57, tenths 29, tenths 42, tenths 13],
   [tenths 62, tenths 29, tenths 43, tenths 13],
   [tenths 51, tenths 25, tenths 30, tenths 11],
   [tenths 57, tenths 28, tenths 41, tenths 13],
   [tenths 63, tenths 33, tenths 60, tenths 25],
   [tenths 58, tenths 27, tenths 51, tenths 19],
   [tenths 71, tenths 30, tenths 59, tenths 21],
   [tenths 63, tenths 29, tenths 56, tenths 18],
   [tenths 65, tenths 30, tenths 58, tenths 22]]

/-- Rows 105 to 119 of the iris feature table. -/
def irisChunk7 : List (List Frac) :=
  [[tenths 76, tenths 30, tenths 66, tenths 21],
   [tenths 49, tenths 25, tenths 45, tenths 17],
   [tenths 73, tenths 29, tenths 63, tenths 18],
   [tenths 67, tenths 25, tenths 58, tenths 18],
   [tenths 72, tenths 36, tenths 61, tenths 25],
   [tenths 65, tenths 32, tenths 51, tenths 20],
   [tenths 64, tenths 27, tenths 53, tenths 19],
   [tenths 68, tenths 30, tenths 55, tenths 21],
   [tenths 57, tenths 25, tenths 50, tenths 20],
   [tenths 58, tenths 28, tenths 51, tenths 24],
   [tenths 64, tenths 32, tenths 53, tenths 23],
   [tenths 65, tenths 30, tenths 55, tenths 18],
   [tenths 77, tenths 38, tenths 67, tenths 22],
   [tenths 77, tenths 26, tenths 69, tenths 23],
   [tenths 60, tenths 22, tenths 50, tenths 15]]

/-- Rows 120 to 134 of the iris feature table. -/
def irisChunk8 : List (List Frac) :=
  [[tenths 69, tenths 32, tenths 57, tenths 23],
   [tenths 56, tenths 28, tenths 49, tenths 20],
   [tenths 77, tenths 28, tenths 67, tenths 20],
   [tenths 63, tenths 27, tenths 49, tenths 18],
   [tenths 67, tenths 33, tenths 57, tenths 21],
   [tenths 72, tenths 32, tenths 60, tenths 18],
   [tenths 62, tenths 28, tenths 48, tenths 18],
   [tenths 61, tenths 30, tenths 49, tenths 18],
   [tenths 64, tenths 28, tenths 56, tenths 21],
   [tenths 72, tenths 30, tenths 58, tenths 16],
   [tenths 74, tenths 28, tenths 61, tenths 19],
   [tenths 79, tenths 38, tenths 64, tenths 20],
   [tenths 64, tenths 28, tenths 56, tenths 22],
   [tenths 63, tenths 28, tenths 51, tenths 15],
   [tenths 61, tenths 26, tenths 56, tenths 14]]

/-- Rows 135 to 149 of the iris feature table. -/
def irisChunk9 : List (List Frac) :=
  [[tenths 77, tenths 30, tenths 61, tenths 23],
   [tenths 63, tenths 34, tenths 56, tenths 24],
   [tenths 64, tenths 31, tenths 55, tenths 18],
   [tenths 60, tenths 30, tenths 48, tenths 18],
   [tenths 69, tenths 31, tenths 54, tenths 21],
   [tenths 67, tenths 31, tenths 56, tenths 24],
   [tenths 69, tenths 31, tenths 51, tenths 23],
   [tenths 58, tenths 27, tenths 51, tenths 19],
   [tenths 68, tenths 32, tenths 59, tenths 23],
   [tenths 67, tenths 33, tenths 57, tenths 25],
   [tenths 67, tenths 30, tenths 52, tenths 23],
   [tenths 63, tenths 25, tenths 50, tenths 19],
   [tenths 65, tenths 30, tenths 52, tenths 20],
   [tenths 62, tenths 34, tenths 54, tenths 23],
   [tenths 59, tenths 30, tenths 51, tenths 18]]

/-- Modelled from the spec: the fixed standard 4-feature, 3-class iris
dataset returned by `sklearn.datasets.load_iris` — 150 samples, 50 per
class, in class order (setosa 0, versicolor 1, virginica 2); every feature
value has one decimal digit, written as `tenths` of a unit, in chunks of
15 rows. -/
def irisData : List (List Frac) :=
  irisChunk0 ++ irisChunk1 ++ irisChunk2 ++ irisChunk3 ++ irisChunk4 ++
    irisChunk5 ++ irisChunk6 ++ irisChunk7 ++ irisChunk8 ++ irisChunk9

/-- The class labels matching `irisData`: 50 of each class, in order. -/
def irisTarget : List Nat :=
  List.replicate 50 0 ++ List.replicate 50 1 ++ List.replicate 50 2

/-- Modelled from the spec: `sklearn.datasets.load_iris()` returns the
fixed dataset, wholesale. -/
def load_iris : IrisDataset :=
  { data := irisData, target := irisTarget }

/-- The script `iris_train.py` as one operation on the filesystem:
load the dataset, construct a default classifier, fit it and dump it to
`knn.pkl`. -/
def iris_train (fs : FileSystem) : FileSystem :=
  let iris := load_iris
  let X := iris.data
  let y := iris.target
  let knn : KNeighborsClassifier := {}
  let knn := knn.fit X y
  joblib_dump knn "knn.pkl" fs

/-- The classifier the trainer writes: the default classifier fitted on
the iris dataset. -/
def trainedModel : KNeighborsClassifier :=
  ({} : KNeighborsClassifier).fit load_iris.data load_iris.target

/-- Number of training rows whose predicted label matches the training
label, out of `model.predict` on the whole feature table (0 when predict
fails). -/
def correctCount (m : KNeighborsClassifier) (X : List (List Frac))
    (y : List Nat) : Nat :=
  match m.predict X with
  | .ok labels => ((labels.zip y).countP (fun p => p.1 == p.2))
  | .error _ => 0

/-! ## Concrete requests used to evaluate the theorems -/

/-- The request body of the concrete echo scenario. -/
def adaBody : JsonValue :=
  .obj [("name", .str "Ada"), ("age", .int 30)]

/-- An echo request body missing the `age` key. -/
def bobBody : JsonValue :=
  .obj [("name", .str "Bob")]

/-- The feature batch of the concrete prediction scenario: one sample,
the first iris row `[[5.1, 3.5, 1.4, 0.2]]`. -/
def demoIrisX : JsonValue :=
  .arr [.arr [.float (tenths 51), .float (tenths 35), .float (tenths 14),
              .float (tenths 2)]]

/-- The request body of the concrete prediction scenario. -/
def demoIrisBody : JsonValue :=
  .obj [("X", demoIrisX)]

/-- A prediction request whose batch has the wrong arity (2 features). -/
def badShapeBody : JsonValue :=
  .obj [("X", .arr [.arr [.int 1, .int 2]])]

/-- A prediction request without the `X` key. -/
def noXBody : JsonValue :=
  .obj [("Y", .int 1)]

/-- A filesystem holding one unrelated file. -/
def demoFs : FileSystem :=
  [("model_backup.pkl", {})]

/-! ## Helper lemmas -/

/-- Sequencing after a successful step runs the continuation. -/
theorem except_bind_ok {ε α β : Type} (x : α) (f : α → Except ε β) :
    (Except.ok x : Except ε α) >>= f = f x := rfl

/-- Sequencing after a raised exception propagates the exception. -/
theorem except_bind_error {ε α β : Type} (e : ε) (f : α → Except ε β) :
    (Except.error e : Except ε α) >>= f = .error e := rfl

/-- Reading a file just written yields the written content. -/
theorem fsLookup_fsWrite_self (fs : FileSystem) (name : String)
    (m : KNeighborsClassifier) :
    fsLookup (fsWrite fs name m) name = some m := by
  simp [fsLookup, fsWrite, List.lookup]

/-- Dropping the entries at one name does not change lookups at another. -/
theorem lookup_filter_ne (fs : FileSystem) (name f : String) (h : f ≠ name) :
    (fs.filter (fun p => !(p.1 == name))).lookup f = fs.lookup f := by
  have hfn : (f == name) = false := beq_eq_false_iff_ne.mpr h
  induction fs with
  | nil => rfl
  | cons p ps ih =>
    by_cases hp : p.1 = name
    · have h1 : (p.1 == name) = true := beq_iff_eq.mpr hp
      have h2 : (f == p.1) = false := by rw [hp]; exact hfn
      simp [List.filter, List.lookup, h1, h2, ih]
    · have h1 : (p.1 == name) = false := beq_eq_false_iff_ne.mpr hp
      by_cases hfp : f = p.1
      · have h2 : (f == p.1) = true := beq_iff_eq.mpr hfp
        simp [List.filter, List.lookup, h1, h2]
      · have h2 : (f == p.1) = false := beq_eq_false_iff_ne.mpr hfp
        simp [List.filter, List.lookup, h1, h2, ih]

/-- Writing one file does not change lookups at another name. -/
theorem fsLookup_fsWrite_ne (fs : FileSystem) (name : String)
    (m : KNeighborsClassifier) (f : String) (h : f ≠ name) :
    fsLookup (fsWrite fs name m) f = fsLookup fs f := by
  have hf : (f == name) = false := beq_eq_false_iff_ne.mpr h
  simp [fsLookup, fsWrite, List.lookup, hf, lookup_filter_ne fs name f h]

/-- Subscripting a body that lacks the key raises an exception. -/
theorem pyGetItem_error_of_not_hasKey (j : JsonValue) (k : String)
    (h : hasKey j k = false) : ∃ e, pyGetItem j k = .error e := by
  cases j with
  | obj fields =>
      cases hl : fields.lookup k with
      | none => exact ⟨.keyError k, by simp [pyGetItem, hl]⟩
      | some v => simp [hasKey, hl] at h
  | null => exact ⟨.typeError, rfl⟩
  | bool b => exact ⟨.typeError, rfl⟩
  | int n => exact ⟨.typeError, rfl⟩
  | float q => exact ⟨.typeError, rfl⟩
  | str s => exact ⟨.typeError, rfl⟩
  | arr elems => exact ⟨.typeError, rfl⟩

/-- Subscripting succeeds only on a body that has the key. -/
theorem hasKey_of_pyGetItem_ok (j : JsonValue) (k : String) (v : JsonValue)
    (h : pyGetItem j k = .ok v) : hasKey j k = true := by
  cases j with
  | obj fields =>
      cases hl : fields.lookup k with
      | none => simp [pyGetItem, hl] at h
      | some w => simp [hasKey, hl]
  | null => simp [pyGetItem] at h
  | bool b => simp [pyGetItem] at h
  | int n => simp [pyGetItem] at h
  | float q => simp [pyGetItem] at h
  | str s => simp [pyGetItem] at h
  | arr elems => simp [pyGetItem] at h

/-! ## The claims -/

/-- C1: for every JSON request body containing both keys `name` and `age`,
the echo handler returns status 200 with body exactly
`Hello <name>. You(squote)re <age> years old.`, both supplied values
rendered verbatim and nothing else of the request in the response. -/
theorem echo_ok (body name age : JsonValue)
    (hn : pyGetItem body "name" = .ok name)
    (ha : pyGetItem body "age" = .ok age) :
    post_method body = .ok (echoSentence name age) ∧
    flaskResponse (post_method body) =
      ⟨200, "Hello " ++ pyStr name ++ ". You" ++ apos ++ "re " ++
        pyStr age ++ " years old."⟩ := by
  have h : post_method body = .ok (echoSentence name age) := by
    unfold post_method
    rw [hn, except_bind_ok, ha, except_bind_ok]
    rfl
  exact ⟨h, by rw [h]; rfl⟩

/-- C1 witness: the concrete scenario — POST `/do_post` with name `Ada`
and age `30` yields a 200 response whose body is the exact sentence. -/
theorem echo_ok_witness :
    flaskResponse (post_method adaBody) =
      ⟨200, "Hello Ada. You" ++ apos ++ "re 30 years old."⟩ := by
  have h := echo_ok adaBody (.str "Ada") (.int 30) rfl rfl
  exact h.2.trans (by decide)

/-- C2: for every JSON request body in which key `name` or key `age` is
absent, the echo handler raises, and Flask turns that into the default
error response — never a 200 with a partial sentence. -/
theorem echo_missing_key (body : JsonValue)
    (h : hasKey body "name" = false ∨ hasKey body "age" = false) :
    (∃ e, post_method body = .error e) ∧
    flaskResponse (post_method body) = INTERNAL_SERVER_ERROR := by
  have herr : ∃ e, post_method body = .error e := by
    cases hn : pyGetItem body "name" with
    | error e =>
        exact ⟨e, by unfold post_method; rw [hn, except_bind_error]⟩
    | ok name =>
        have hkn := hasKey_of_pyGetItem_ok body "name" name hn
        have hka : hasKey body "age" = false := by
          cases h with
          | inl h1 => rw [hkn] at h1; cases h1
          | inr h2 => exact h2
        obtain ⟨e, he⟩ := pyGetItem_error_of_not_hasKey body "age" hka
        exact ⟨e, by
          unfold post_method
          rw [hn, except_bind_ok, he, except_bind_error]⟩
  obtain ⟨e, he⟩ := herr
  exact ⟨⟨e, he⟩, by rw [he]; rfl⟩

/-- C2 witness: a body carrying only `name` is answered by the default
500 error response, not a partial success. -/
theorem echo_missing_key_witness :
    hasKey bobBody "age" = false ∧
    flaskResponse (post_method bobBody) = INTERNAL_SERVER_ERROR := by
  have h := echo_missing_key bobBody (Or.inr rfl)
  exact ⟨rfl, h.2⟩

/-- C8: every request to the root handler gets status 200 with the fixed
body `Hello World!`, with no failure mode and no filesystem effect. -/
theorem root_ok :
    hello = .ok "Hello World!" ∧
    ∀ fs, handle .getRoot fs = (⟨200, "Hello World!"⟩, fs) :=
  ⟨rfl, fun _ => rfl⟩

/-- C3: whenever the body holds `X`, the prediction handler loads the
classifier from the fixed filename `knn.pkl` anew on that call — its answer
is determined by the current content of that file, with no cache — invokes
the prediction operation on the value of `X`, and returns the label array
rendered as a string. -/
theorem predict_ok (body x : JsonValue) (fs : FileSystem)
    (m : KNeighborsClassifier) (labels : List Nat)
    (hx : pyGetItem body "X" = .ok x)
    (hm : joblib_load "knn.pkl" fs = .ok m)
    (hp : m.predictJson x = .ok labels) :
    predict_iris body fs = .ok (npIntArrayStr labels) ∧
    flaskResponse (predict_iris body fs) = ⟨200, npIntArrayStr labels⟩ ∧
    ∀ fs₂, fsLookup fs₂ "knn.pkl" = fsLookup fs "knn.pkl" →
      predict_iris body fs₂ = predict_iris body fs := by
  have h : predict_iris body fs = .ok (npIntArrayStr labels) := by
    unfold predict_iris
    rw [hx, except_bind_ok, hm, except_bind_ok, hp, except_bind_ok]
    rfl
  refine ⟨h, by rw [h]; rfl, fun fs₂ heq => ?_⟩
  unfold predict_iris
  have hload : joblib_load "knn.pkl" fs₂ = joblib_load "knn.pkl" fs := by
    unfold joblib_load
    rw [heq]
  rw [hload]

/-- C3 witness: the concrete scenario — POST `/predict_iris` with
`X = [[5.1, 3.5, 1.4, 0.2]]` against the freshly trained classifier
answers 200 with body `[0]`. -/
theorem predict_ok_witness :
    pyGetItem demoIrisBody "X" = .ok demoIrisX ∧
    joblib_load "knn.pkl" (iris_train []) = .ok trainedModel ∧
    trainedModel.predictJson demoIrisX = .ok [0] ∧
    flaskResponse (predict_iris demoIrisBody (iris_train [])) =
      ⟨200, "[0]"⟩ := by
  have hp : trainedModel.predictJson demoIrisX = .ok [0] := by decide!
  have h := predict_ok demoIrisBody demoIrisX (iris_train [])
    trainedModel [0] rfl rfl hp
  exact ⟨rfl, rfl, hp, h.2.1⟩

/-- C4: a missing `X` key, a missing model file, or a batch incompatible
with the loaded classifier each make the prediction handler raise, and in
every case the response is the framework default unhandled-error response
with no custom body. -/
theorem predict_unhandled_error (body : JsonValue) (fs : FileSystem)
    (h : hasKey body "X" = false ∨ fsLookup fs "knn.pkl" = none ∨
      ∃ x m, pyGetItem body "X" = .ok x ∧ fsLookup fs "knn.pkl" = some m ∧
        ∃ e, m.predictJson x = .error e) :
    (∃ e, predict_iris body fs = .error e) ∧
    flaskResponse (predict_iris body fs) = INTERNAL_SERVER_ERROR := by
  have herr : ∃ e, predict_iris body fs = .error e := by
    rcases h with h1 | h2 | ⟨x, m, hx, hm, e, hp⟩
    · obtain ⟨e, he⟩ := pyGetItem_error_of_not_hasKey body "X" h1
      exact ⟨e, by unfold predict_iris; rw [he, except_bind_error]⟩
    · cases hx : pyGetItem body "X" with
      | error e =>
          exact ⟨e, by unfold predict_iris; rw [hx, except_bind_error]⟩
      | ok x =>
          refine ⟨.fileNotFoundError, ?_⟩
          unfold predict_iris
          rw [hx, except_bind_ok]
          have hload : joblib_load "knn.pkl" fs = .error .fileNotFoundError := by
            unfold joblib_load
            rw [h2]
          rw [hload, except_bind_error]
    · refine ⟨e, ?_⟩
      unfold predict_iris
      have hload : joblib_load "knn.pkl" fs = .ok m := by
        unfold joblib_load
        rw [hm]
      rw [hx, except_bind_ok, hload, except_bind_ok, hp, except_bind_error]
  obtain ⟨e, he⟩ := herr
  exact ⟨⟨e, he⟩, by rw [he]; rfl⟩

/-- C4 witness: a batch of the wrong arity against the trained classifier
is answered by the default 500 error response. -/
theorem predict_unhandled_error_witness :
    (∃ e, trainedModel.predictJson (.arr [.arr [.int 1, .int 2]]) = .error e) ∧
    flaskResponse (predict_iris badShapeBody (iris_train [])) =
      INTERNAL_SERVER_ERROR := by
  have h := predict_unhandled_error badShapeBody (iris_train [])
    (Or.inr (Or.inr ⟨.arr [.arr [.int 1, .int 2]], trainedModel, rfl, rfl,
      .valueError, rfl⟩))
  exact ⟨⟨.valueError, rfl⟩, h.2⟩

/-- C9: the lookup of key `X` happens before the model file is read — a
body lacking `X` raises from the subscript itself, and the outcome is the
same exception whether or not the model file exists. -/
theorem missing_X_before_load (body : JsonValue) (fs fs₂ : FileSystem)
    (h : hasKey body "X" = false) :
    (∃ e, pyGetItem body "X" = .error e ∧ predict_iris body fs = .error e) ∧
    predict_iris body fs = predict_iris body fs₂ := by
  obtain ⟨e, he⟩ := pyGetItem_error_of_not_hasKey body "X" h
  have hfs : predict_iris body fs = .error e := by
    unfold predict_iris
    rw [he, except_bind_error]
  have hfs₂ : predict_iris body fs₂ = .error e := by
    unfold predict_iris
    rw [he, except_bind_error]
  exact ⟨⟨e, he, hfs⟩, hfs.trans hfs₂.symm⟩

/-- C9 witness: a body without `X` gets the very same outcome on an empty
filesystem as on one where the trained model file exists. -/
theorem missing_X_before_load_witness :
    hasKey noXBody "X" = false ∧
    fsLookup (iris_train []) "knn.pkl" = some trainedModel ∧
    predict_iris noXBody [] = predict_iris noXBody (iris_train []) := by
  have h := missing_X_before_load noXBody [] (iris_train []) rfl
  exact ⟨rfl, rfl, h.2⟩

/-- C5: the trainer takes no input and is exactly: load the fixed dataset,
construct a classifier with the default neighbor count, fit it on the
dataset, and write it to the fixed filename `knn.pkl`, replacing any prior
file there; every other file is untouched. -/
theorem trainer_writes_model (fs : FileSystem) :
    iris_train fs = fsWrite fs "knn.pkl" trainedModel ∧
    trainedModel =
      ({} : KNeighborsClassifier).fit load_iris.data load_iris.target ∧
    trainedModel.n_neighbors = 5 ∧
    fsLookup (iris_train fs) "knn.pkl" = some trainedModel ∧
    ∀ f, f ≠ "knn.pkl" → fsLookup (iris_train fs) f = fsLookup fs f := by
  refine ⟨rfl, rfl, rfl, fsLookup_fsWrite_self fs "knn.pkl" trainedModel,
    fun f hf => ?_⟩
  exact fsLookup_fsWrite_ne fs "knn.pkl" trainedModel f hf

/-- C5 witness: training over a filesystem that already holds a `knn.pkl`
and an unrelated file replaces the former and leaves the latter alone. -/
theorem trainer_writes_model_witness :
    fsLookup (iris_train (("knn.pkl", ({} : KNeighborsClassifier)) :: demoFs))
        "knn.pkl" = some trainedModel ∧
    fsLookup (iris_train (("knn.pkl", ({} : KNeighborsClassifier)) :: demoFs))
        "model_backup.pkl" = some {} := by
  have h := trainer_writes_model
    (("knn.pkl", ({} : KNeighborsClassifier)) :: demoFs)
  exact ⟨h.2.2.2.1, (h.2.2.2.2 "model_backup.pkl" (by decide)).trans rfl⟩

/-- C6: a classifier serialized by the trainer side and deserialized by the
server side is recovered exactly, so its predictions agree with the
in-memory classifier on every input batch. -/
theorem dump_load_roundtrip (m : KNeighborsClassifier) (fs : FileSystem)
    (X : List (List Frac)) :
    ∃ m', joblib_load "knn.pkl" (joblib_dump m "knn.pkl" fs) = .ok m' ∧
      m'.predict X = m.predict X ∧
      ∀ x : JsonValue, m'.predictJson x = m.predictJson x := by
  refine ⟨m, ?_, rfl, fun _ => rfl⟩
  unfold joblib_load joblib_dump
  rw [fsLookup_fsWrite_self]

/-- The trainer, written as the one file write it performs. -/
theorem iris_train_eq (fs : FileSystem) :
    iris_train fs = fsWrite fs "knn.pkl" trainedModel := rfl

set_option maxRecDepth 100000 in
/-- Labels the trained classifier assigns to rows 0 to 14. -/
theorem predict_chunk0 :
    irisChunk0.map trainedModel.predictOne =
      [0, 0, 0, 0, 0, 0, 0, 0, 0, 0, 0, 0, 0, 0, 0] := by decide!

set_option maxRecDepth 100000 in
/-- Labels the trained classifier assigns to rows 15 to 29. -/
theorem predict_chunk1 :
    irisChunk1.map trainedModel.predictOne =
      [0, 0, 0, 0, 0, 0, 0, 0, 0, 0, 0, 0, 0, 0, 0] := by decide!

set_option maxRecDepth 100000 in
/-- Labels the trained classifier assigns to rows 30 to 44. -/
theorem predict_chunk2 :
    irisChunk2.map trainedModel.predictOne =
      [0, 0, 0, 0, 0, 0, 0, 0, 0, 0, 0, 0, 0, 0, 0] := by decide!

set_option maxRecDepth 100000 in
/-- Labels the trained classifier assigns to rows 45 to 59. -/
theorem predict_chunk3 :
    irisChunk3.map trainedModel.predictOne =
      [0, 0, 0, 0, 0, 1, 1, 1, 1, 1, 1, 1, 1, 1, 1] := by decide!

set_option maxRecDepth 100000 in
/-- Labels the trained classifier assigns to rows 60 to 74 (rows 70 and
72 are the first two training rows the 5-NN vote mislabels). -/
theorem predict_chunk4 :
    irisChunk4.map trainedModel.predictOne =
      [1, 1, 1, 1, 1, 1, 1, 1, 1, 1, 2, 1, 2, 1, 1] := by decide!

set_option maxRecDepth 100000 in
/-- Labels the trained classifier assigns to rows 75 to 89 (row 83 is
mislabeled). -/
theorem predict_chunk5 :
    irisChunk5.map trainedModel.predictOne =
      [1, 1, 1, 1, 1, 1, 1, 1, 2, 1, 1, 1, 1, 1, 1] := by decide!

set_option maxRecDepth 100000 in
/-- Labels the trained classifier assigns to rows 90 to 104. -/
theorem predict_chunk6 :
    irisChunk6.map trainedModel.predictOne =
      [1, 1, 1, 1, 1, 1, 1, 1, 1, 1, 2, 2, 2, 2, 2] := by decide!

set_option maxRecDepth 100000 in
/-- Labels the trained classifier assigns to rows 105 to 119 (rows 106
and 119 are mislabeled). -/
theorem predict_chunk7 :
    irisChunk7.map trainedModel.predictOne =
      [2, 1, 2, 2, 2, 2, 2, 2, 2, 2, 2, 2, 2, 2, 1] := by decide!

set_option maxRecDepth 100000 in
/-- Labels the trained classifier assigns to rows 120 to 134. -/
theorem predict_chunk8 :
    irisChunk8.map trainedModel.predictOne =
      [2, 2, 2, 2, 2, 2, 2, 2, 2, 2, 2, 2, 2, 2, 2] := by decide!

set_option maxRecDepth 100000 in
/-- Labels the trained classifier assigns to rows 135 to 149. -/
theorem predict_chunk9 :
    irisChunk9.map trainedModel.predictOne =
      [2, 2, 2, 2, 2, 2, 2, 2, 2, 2, 2, 2, 2, 2, 2] := by decide!

/-- The labels the trained classifier assigns to the full training table:
145 of the 150 match the training labels, the five known 5-NN
misclassifications (rows 70, 72, 83, 106, 119) do not. -/
theorem map_predictOne_iris :
    irisData.map trainedModel.predictOne =
      [0, 0, 0, 0, 0, 0, 0, 0, 0, 0, 0, 0, 0, 0, 0] ++
      [0, 0, 0, 0, 0, 0, 0, 0, 0, 0, 0, 0, 0, 0, 0] ++
      [0, 0, 0, 0, 0, 0, 0, 0, 0, 0, 0, 0, 0, 0, 0] ++
      [0, 0, 0, 0, 0, 1, 1, 1, 1, 1, 1, 1, 1, 1, 1] ++
      [1, 1, 1, 1, 1, 1, 1, 1, 1, 1, 2, 1, 2, 1, 1] ++
      [1, 1, 1, 1, 1, 1, 1, 1, 2, 1, 1, 1, 1, 1, 1] ++
      [1, 1, 1, 1, 1, 1, 1, 1, 1, 1, 2, 2, 2, 2, 2] ++
      [2, 1, 2, 2, 2, 2, 2, 2, 2, 2, 2, 2, 2, 2, 1] ++
      [2, 2, 2, 2, 2, 2, 2, 2, 2, 2, 2, 2, 2, 2, 2] ++
      [2, 2, 2, 2, 2, 2, 2, 2, 2, 2, 2, 2, 2, 2, 2] := by
  show (irisChunk0 ++ irisChunk1 ++ irisChunk2 ++ irisChunk3 ++ irisChunk4 ++
    irisChunk5 ++ irisChunk6 ++ irisChunk7 ++ irisChunk8 ++
    irisChunk9).map trainedModel.predictOne = _
  rw [List.map_append, List.map_append, List.map_append, List.map_append,
    List.map_append, List.map_append, List.map_append, List.map_append,
    List.map_append, predict_chunk0, predict_chunk1, predict_chunk2,
    predict_chunk3, predict_chunk4, predict_chunk5, predict_chunk6,
    predict_chunk7, predict_chunk8, predict_chunk9]

set_option maxRecDepth 100000 in
/-- The trained classifier labels 145 of its 150 training rows with
their training labels. -/
theorem correctCount_iris :
    correctCount trainedModel load_iris.data load_iris.target = 145 := by
  have h : trainedModel.predict load_iris.data =
      .ok (irisData.map trainedModel.predictOne) := by
    have h1 : load_iris.data.isEmpty = false := by decide
    have h2 : load_iris.data.all
        (fun row => row.length == trainedModel.n_features) = true := by decide
    unfold KNeighborsClassifier.predict
    rw [h1, h2]
    rfl
  unfold correctCount
  rw [h, map_predictOne_iris]
  decide

set_option maxRecDepth 100000 in
/-- C7: training is deterministic — every run of the trainer stores the
identical fitted classifier — and that classifier relabels its own
training rows with accuracy at least 0.9. -/
theorem training_deterministic_accurate :
    (∀ fs₁ fs₂ : FileSystem,
      fsLookup (iris_train fs₁) "knn.pkl" =
        fsLookup (iris_train fs₂) "knn.pkl") ∧
    10 * correctCount trainedModel load_iris.data load_iris.target ≥
      9 * load_iris.target.length := by
  refine ⟨fun fs₁ fs₂ => ?_, ?_⟩
  · rw [iris_train_eq, iris_train_eq, fsLookup_fsWrite_self,
      fsLookup_fsWrite_self]
  · rw [correctCount_iris]
    decide

/-- C10: no server handler changes the filesystem — every request leaves
it exactly as found — while the trainer changes nothing but the
`knn.pkl` artifact it writes. -/
theorem handlers_no_write :
    (∀ req fs, (handle req fs).2 = fs) ∧
    (∀ fs, fsLookup (iris_train fs) "knn.pkl" = some trainedModel) ∧
    (∀ fs f, f ≠ "knn.pkl" → fsLookup (iris_train fs) f = fsLookup fs f) := by
  refine ⟨fun req fs => ?_, fun fs => ?_, fun fs f hf => ?_⟩
  · cases req <;> rfl
  · exact fsLookup_fsWrite_self fs "knn.pkl" trainedModel
  · exact fsLookup_fsWrite_ne fs "knn.pkl" trainedModel f hf

/-- C10 witness: a prediction request leaves a concrete filesystem
unchanged, and the trainer leaves a concrete unrelated file unchanged. -/
theorem handlers_no_write_witness :
    (handle (.postPredictIris demoIrisBody) demoFs).2 = demoFs ∧
    fsLookup (iris_train demoFs) "model_backup.pkl" =
      fsLookup demoFs "model_backup.pkl" := by
  have h := handlers_no_write
  exact ⟨h.1 (.postPredictIris demoIrisBody) demoFs,
    h.2.2 demoFs "model_backup.pkl" (by decide)⟩

end PythonDocker
